import Mathlib

/-!
Verification of the claude-x-plugin scripts (`scripts/oauth-server.py` and
`scripts/x-api.py`) against their natural-language specification.

The Python code is shallowly embedded: pure fragments become Lean functions,
the settings file and the in-memory settings dict become explicit state,
network responses become function parameters, and `sys.exit(1)` paths become
`Option.none` (or dedicated error constructors).  All embedded definitions
are executable so that concrete inputs can be evaluated by `decide`.
-/

/-! ## Python string primitives

Helpers mirroring the Python `str` operations used by the scripts.
Everything is implemented over `List Char` (a Lean `String` is a list of
code points, exactly as Python indexes strings by code points), with
structural recursion only, so the kernel can evaluate them inside `decide`.
-/

/-- Characters stripped by Python `str.strip()` (ASCII whitespace). -/
def isPySpace (c : Char) : Bool :=
  c = ' ' || c = '\t' || c = '\n' || c = '\r' || c = '\x0b' || c = '\x0c'

/-- Python `str.strip()` on a list of characters. -/
def pyStripList (l : List Char) : List Char :=
  ((l.dropWhile isPySpace).reverse.dropWhile isPySpace).reverse

/-- Python `str.strip()`. -/
def pyStrip (s : String) : String :=
  String.mk (pyStripList s.toList)

/-- Python `s.startswith(p)`. -/
def pyStartsWith (s p : String) : Bool :=
  p.toList.isPrefixOf s.toList

/-- Core of Python `str.split(sep)` for a non-empty separator: scan left to
right, splitting at each leftmost non-overlapping occurrence of `sep`.
The `fuel` argument only makes the recursion structural; with
`fuel ≥ l.length` (as used by `pySplit`) the fuel never runs out. -/
def splitOnFrom (sep : List Char) : Nat → List Char → List (List Char)
  | _, [] => [[]]
  | 0, l => [l]
  | fuel + 1, c :: cs =>
    if sep.isPrefixOf (c :: cs) ∧ 0 < sep.length then
      [] :: splitOnFrom sep fuel (cs.drop (sep.length - 1))
    else
      match splitOnFrom sep fuel cs with
      | [] => [[c]]
      | chunk :: rest => (c :: chunk) :: rest

/-- Python `s.split(sep)` for a non-empty separator `sep`. -/
def pySplit (sep s : String) : List String :=
  (splitOnFrom sep.toList s.toList.length s.toList).map String.mk

/-- Python `sep.join(xs)`. -/
def pyJoin (sep : String) : List String → String
  | [] => ""
  | [x] => x
  | x :: xs => x ++ sep ++ pyJoin sep xs

/-- Value of a decimal digit character, `none` for a non-digit. -/
def digitVal? (c : Char) : Option Nat :=
  if '0' ≤ c ∧ c ≤ '9' then some (c.toNat - '0'.toNat) else none

/-- Accumulating decimal parser: consumes the whole list or fails. -/
def parseDigitsAcc : List Char → Nat → Option Nat
  | [], acc => some acc
  | c :: cs, acc =>
    match digitVal? c with
    | some d => parseDigitsAcc cs (10 * acc + d)
    | none => none

/-- Parse a non-empty run of decimal digits. -/
def parseDigits? (l : List Char) : Option Nat :=
  match l with
  | [] => none
  | _ => parseDigitsAcc l 0

/-- Python `int(str)` restricted to the shapes the scripts store (an optional
sign followed by decimal digits, surrounded by optional whitespace);
`none` models the `ValueError` raised on anything else. -/
def pyIntList? (l : List Char) : Option Int :=
  match pyStripList l with
  | [] => none
  | c :: cs =>
    if c = '-' then (parseDigits? cs).map (fun n => -(n : Int))
    else if c = '+' then (parseDigits? cs).map (fun n => (n : Int))
    else (parseDigits? (c :: cs)).map (fun n => (n : Int))

/-- Python `int(str)` on a `String`. -/
def pyInt? (s : String) : Option Int :=
  pyIntList? s.toList

/-! ## Python dict primitives

The settings dictionary built by `load_settings` is modelled as an
association list with unique keys; assignment replaces in place. -/

/-- Python `d.get(k, default)` (first matching key). -/
def dictGet (d : List (String × String)) (k dflt : String) : String :=
  match d with
  | [] => dflt
  | (k', v) :: rest => if k' = k then v else dictGet rest k dflt

/-- Python `d[k] = v`: replace the existing binding in place, else append. -/
def dictSet (d : List (String × String)) (k v : String) : List (String × String) :=
  match d with
  | [] => [(k, v)]
  | (k', v') :: rest => if k' = k then (k, v) :: rest else (k', v') :: dictSet rest k v

/-- Python `k in d`. -/
def hasKey (d : List (String × String)) (k : String) : Bool :=
  match d with
  | [] => false
  | (k', _) :: rest => if k' = k then true else hasKey rest k

/-! ## oauth-server.py — PKCE generator

`generate_pkce_pair` (scripts/oauth-server.py:34-39):
```
code_verifier = secrets.token_urlsafe(64)[:128]
digest = hashlib.sha256(code_verifier.encode("ascii")).digest()
code_challenge = base64.urlsafe_b64encode(digest).rstrip(b"=").decode("ascii")
```
`secrets.token_urlsafe(64)` is `base64.urlsafe_b64encode(os.urandom(64))`
with the `=` padding stripped, so the 64 random bytes become an explicit
parameter and the library SHA-256 becomes a function parameter. -/

/-- The URL-safe base64 alphabet used by `base64.urlsafe_b64encode`. -/
def b64table : List Char :=
  ['A', 'B', 'C', 'D', 'E', 'F', 'G', 'H', 'I', 'J', 'K', 'L', 'M',
   'N', 'O', 'P', 'Q', 'R', 'S', 'T', 'U', 'V', 'W', 'X', 'Y', 'Z',
   'a', 'b', 'c', 'd', 'e', 'f', 'g', 'h', 'i', 'j', 'k', 'l', 'm',
   'n', 'o', 'p', 'q', 'r', 's', 't', 'u', 'v', 'w', 'x', 'y', 'z',
   '0', '1', '2', '3', '4', '5', '6', '7', '8', '9', '-', '_']

/-- Character of the URL-safe base64 alphabet at index `n % 64`. -/
def b64char (n : Nat) : Char :=
  b64table.getD (n % 64) 'A'

/-- Python `base64.urlsafe_b64encode(bytes).rstrip(b"=")`: URL-safe base64 with the
padding stripped, three input bytes per four output characters. -/
def b64urlChars : List Nat → List Char
  | [] => []
  | [b1] => [b64char (b1 / 4), b64char (b1 % 4 * 16)]
  | [b1, b2] =>
    [b64char (b1 / 4), b64char (b1 % 4 * 16 + b2 / 16), b64char (b2 % 16 * 4)]
  | b1 :: b2 :: b3 :: rest =>
    b64char (b1 / 4) :: b64char (b1 % 4 * 16 + b2 / 16) ::
    b64char (b2 % 16 * 4 + b3 / 64) :: b64char (b3 % 64) :: b64urlChars rest

/-- Embedding of `generate_pkce_pair` (oauth-server.py:34-39).  `randomBytes` are the 64
bytes of `os.urandom(64)` inside `secrets.token_urlsafe(64)`; `sha256` is the
`hashlib.sha256(...).digest()` function (bytes to 32 bytes).  Returns
`(code_verifier, code_challenge)`. -/
def generate_pkce_pair (sha256 : List Nat → List Nat) (randomBytes : List Nat) :
    String × String :=
  let code_verifier := (b64urlChars randomBytes).take 128
  let digest := sha256 (code_verifier.map Char.toNat)
  (String.mk code_verifier, String.mk (b64urlChars digest))

/-- The verifier alphabet required by the spec: `[A-Za-z0-9._~-]`. -/
def pkceAlphabet : List Char :=
  ['A', 'B', 'C', 'D', 'E', 'F', 'G', 'H', 'I', 'J', 'K', 'L', 'M',
   'N', 'O', 'P', 'Q', 'R', 'S', 'T', 'U', 'V', 'W', 'X', 'Y', 'Z',
   'a', 'b', 'c', 'd', 'e', 'f', 'g', 'h', 'i', 'j', 'k', 'l', 'm',
   'n', 'o', 'p', 'q', 'r', 's', 't', 'u', 'v', 'w', 'x', 'y', 'z',
   '0', '1', '2', '3', '4', '5', '6', '7', '8', '9', '.', '_', '~', '-']

/-! ## oauth-server.py — callback handler and flow -/

/-- The `auth_result` dict shapes set by `OAuthCallbackHandler.do_GET`
(oauth-server.py:126, 135, 146). -/
inductive AuthResult where
  /-- Dict `{"error": e, "error_description": d}` -/
  | err : String → String → AuthResult
  /-- Dict `{"error": "state_mismatch"}` -/
  | stateMismatch : AuthResult
  /-- Dict `{"code": c}` -/
  | success : String → AuthResult
deriving DecidableEq

/-- Embedding of `OAuthCallbackHandler.do_GET` (oauth-server.py:113-146). `params` is the
parsed query string (`urllib.parse.parse_qs`, first value per key; `parse_qs`
drops empty values).  Returns the HTTP status sent and the recorded
`auth_result`. -/
def do_GET (expected_state : String) (params : List (String × String)) :
    Nat × AuthResult :=
  if hasKey params "code" = false then
    (400, AuthResult.err (dictGet params "error" "unknown")
      (dictGet params "error_description" "No details"))
  else if dictGet params "state" "" ≠ expected_state then
    (400, AuthResult.stateMismatch)
  else
    (200, AuthResult.success (dictGet params "code" ""))

/-- What `run_oauth_flow` does with `server.auth_result` after the listener
returns (oauth-server.py:182-196): exit(1) printing the error without any
token exchange, or proceed to `exchange_code_for_token`. -/
inductive FlowOutcome where
  /-- Path `print(f"ERROR={error} {desc}"); sys.exit(1)` — no token exchange. -/
  | exitNoExchange : String → String → FlowOutcome
  /-- Path where `exchange_code_for_token(code, ...)` is called. -/
  | exchange : String → FlowOutcome
deriving DecidableEq

/-- oauth-server.py:182-196.  `none` models `auth_result` still being `None`
when `handle_request` returns without the handler recording a result. -/
def flow_after_callback (result : Option AuthResult) : FlowOutcome :=
  match result with
  | none => FlowOutcome.exitNoExchange "no_response" ""
  | some (AuthResult.err e d) => FlowOutcome.exitNoExchange e d
  | some AuthResult.stateMismatch => FlowOutcome.exitNoExchange "state_mismatch" ""
  | some (AuthResult.success c) => FlowOutcome.exchange c

/-! ## oauth-server.py — the blocking wait of the listener

`run_oauth_flow` creates `http.server.HTTPServer(("localhost", port),
OAuthCallbackHandler)` (oauth-server.py:167) and never assigns its `timeout`
attribute, so `socketserver.BaseServer.timeout` keeps its default `None` and
`server.handle_request()` (oauth-server.py:179) blocks until a request
arrives.  The wait is modelled as a step relation over discrete time: at each
instant either a request arrives (and the handler records a result) or
nothing arrives, in which case `handle_request` keeps blocking when no
timeout is configured, and would give up (leaving `auth_result = None`) if a
timeout were configured. -/

/-- The timeout `run_oauth_flow` configures on the `HTTPServer`: the code
sets none, leaving the library default `timeout = None`. -/
def serverTimeout : Option Nat := none

/-- State of the one-shot listener wait. -/
inductive ListenerState where
  | listening : ListenerState
  /-- State after `handle_request` returned; the payload is `server.auth_result`. -/
  | closed : Option AuthResult → ListenerState
deriving DecidableEq

/-- One instant of the wait inside `server.handle_request()`. -/
def listenerStep (expected_state : String)
    (incoming : Option (List (String × String))) :
    ListenerState → ListenerState
  | ListenerState.listening =>
    match incoming with
    | some params => ListenerState.closed (some (do_GET expected_state params).2)
    | none =>
      match serverTimeout with
      | some _ => ListenerState.closed none
      | none => ListenerState.listening
  | s => s

/-- The wait after `n` instants, `incoming i` being the request (if any)
arriving at instant `i`. -/
def listenerRun (expected_state : String)
    (incoming : Nat → Option (List (String × String))) : Nat → ListenerState
  | 0 => ListenerState.listening
  | n + 1 => listenerStep expected_state (incoming n) (listenerRun expected_state incoming n)

/-! ## x-api.py — token refresh and lifecycle

`refresh_access_token` (scripts/x-api.py:65-134) and `ensure_valid_token`
(x-api.py:137-144).  The successful JSON response of the token endpoint
becomes the parameter `resp`; the HTTP-error path calls `sys.exit(1)` before
touching any state, as does the missing-refresh-token path (modelled as
`none`).  The settings file content and the in-memory settings dict are
carried in an explicit state record, together with a counter of network
calls made to the token endpoint (instrumentation for the claims about
network activity). -/

/-- The token endpoint's parsed JSON response (`token_data` in the code):
`access_token` is mandatory (x-api.py:102), `refresh_token` and `expires_in`
optional (x-api.py:103-104). -/
structure TokenData where
  access_token : String
  refresh_token : Option String
  expires_in : Option Nat
deriving DecidableEq

/-- State threaded through the x-api functions: the in-memory `settings`
dict, the content of the settings file (`~/.claude/x.local.md`), and the
number of network calls made so far. -/
structure RefreshState where
  settings : List (String × String)
  store : String
  networkCalls : Nat
deriving DecidableEq

/-- The per-line replacement of the frontmatter rewrite loop
(x-api.py:115-124). -/
def replaceTokenLine (new_access new_refresh : String) (expires_at : Nat)
    (line : String) : String :=
  if pyStartsWith (pyStrip line) "access_token:" then
    "access_token: \"" ++ new_access ++ "\""
  else if pyStartsWith (pyStrip line) "refresh_token:" then
    "refresh_token: \"" ++ new_refresh ++ "\""
  else if pyStartsWith (pyStrip line) "token_expires_at:" then
    "token_expires_at: " ++ Nat.repr expires_at
  else line

/-- Embedding of `frontmatter.strip().split("\n")` for `frontmatter = content.split("---")[1]`
(x-api.py:109-116). -/
def frontmatterLines (content : String) : List String :=
  pySplit "\n" (pyStrip ((pySplit "---" content).getD 1 ""))

/-- The `new_lines` list built by the rewrite loop (x-api.py:115-124). -/
def rewrittenLines (new_access new_refresh : String) (expires_at : Nat)
    (content : String) : List String :=
  (frontmatterLines content).map (replaceTokenLine new_access new_refresh expires_at)

/-- The settings-file update of `refresh_access_token` (x-api.py:107-127):
when the content splits into at least three `---` parts the frontmatter is
rewritten and written back, otherwise the file is left untouched. -/
def rewriteStore (new_access new_refresh : String) (expires_at : Nat)
    (content : String) : String :=
  let parts := pySplit "---" content
  if 3 ≤ parts.length then
    "---\n" ++ pyJoin "\n" (rewrittenLines new_access new_refresh expires_at content)
      ++ "\n---" ++ pyJoin "---" (parts.drop 2)
  else content

/-- The in-memory dict updates of `refresh_access_token` (x-api.py:129-131). -/
def updateSettings (settings : List (String × String))
    (new_access new_refresh expiresAtStr : String) : List (String × String) :=
  dictSet (dictSet (dictSet settings "access_token" new_access)
    "refresh_token" new_refresh) "token_expires_at" expiresAtStr

/-- Embedding of `refresh_access_token` (x-api.py:65-134).  `now` is `int(time.time())`,
`resp` the token endpoint's successful response; `none` models the
`sys.exit(1)` on a missing refresh token (the HTTP-error exit likewise
happens before any state is changed). -/
def refresh_access_token (now : Nat) (resp : TokenData) (st : RefreshState) :
    Option RefreshState :=
  let refresh_token := dictGet st.settings "refresh_token" ""
  if refresh_token = "" then none
  else
    let new_access := resp.access_token
    let new_refresh := resp.refresh_token.getD refresh_token
    let expires_in := resp.expires_in.getD 7200
    let expires_at := now + expires_in
    some { settings := updateSettings st.settings new_access new_refresh (Nat.repr expires_at)
           store := rewriteStore new_access new_refresh expires_at st.store
           networkCalls := st.networkCalls + 1 }

/-- Embedding of `ensure_valid_token` (x-api.py:137-144): refresh when
`expires_at and time.time() > expires_at - 300`, else return the settings
unchanged.  `none` models the `ValueError` of `int()` on an unparsable
`token_expires_at` value. -/
def ensure_valid_token (now : Nat) (resp : TokenData) (st : RefreshState) :
    Option RefreshState :=
  match pyInt? (dictGet st.settings "token_expires_at" "0") with
  | none => none
  | some expires_at =>
    if expires_at ≠ 0 ∧ (now : Int) > expires_at - 300 then
      refresh_access_token now resp st
    else
      some st

/-! ## x-api.py — media upload and post commands -/

/-- The standard base64 alphabet used by `base64.b64encode`. -/
def b64stdTable : List Char :=
  ['A', 'B', 'C', 'D', 'E', 'F', 'G', 'H', 'I', 'J', 'K', 'L', 'M',
   'N', 'O', 'P', 'Q', 'R', 'S', 'T', 'U', 'V', 'W', 'X', 'Y', 'Z',
   'a', 'b', 'c', 'd', 'e', 'f', 'g', 'h', 'i', 'j', 'k', 'l', 'm',
   'n', 'o', 'p', 'q', 'r', 's', 't', 'u', 'v', 'w', 'x', 'y', 'z',
   '0', '1', '2', '3', '4', '5', '6', '7', '8', '9', '+', '/']

/-- Character of the standard base64 alphabet at index `n % 64`. -/
def b64stdChar (n : Nat) : Char :=
  b64stdTable.getD (n % 64) 'A'

/-- Python `base64.b64encode`: standard base64 with `=` padding. -/
def b64stdChars : List Nat → List Char
  | [] => []
  | [b1] => [b64stdChar (b1 / 4), b64stdChar (b1 % 4 * 16), '=', '=']
  | [b1, b2] =>
    [b64stdChar (b1 / 4), b64stdChar (b1 % 4 * 16 + b2 / 16),
     b64stdChar (b2 % 16 * 4), '=']
  | b1 :: b2 :: b3 :: rest =>
    b64stdChar (b1 / 4) :: b64stdChar (b1 % 4 * 16 + b2 / 16) ::
    b64stdChar (b2 % 16 * 4 + b3 / 64) :: b64stdChar (b3 % 64) :: b64stdChars rest

/-- Outcome of `upload_media` (x-api.py:187-239) up to the point where the
request is handed to `urllib`. -/
inductive UploadOutcome where
  /-- Path `ERROR=File not found`, `sys.exit(1)` (x-api.py:195-197). -/
  | fileNotFound : UploadOutcome
  /-- Path `ERROR=File too large ({size} bytes)`, `sys.exit(1)` before any request
  is built (x-api.py:203-206); carries `file_size`. -/
  | fileTooLarge : Nat → UploadOutcome
  /-- A POST request to the media endpoint is constructed and sent; carries
  the base64 `media` field of its JSON payload (x-api.py:208-227). -/
  | sendRequest : String → UploadOutcome
deriving DecidableEq

/-- Embedding of `upload_media` (x-api.py:187-233) up to the network call: `file_bytes` is
`path.read_bytes()` when the file exists, `none` otherwise. -/
def upload_media (file_bytes : Option (List Nat)) : UploadOutcome :=
  match file_bytes with
  | none => UploadOutcome.fileNotFound
  | some bytes =>
    if bytes.length > 5 * 1024 * 1024 then UploadOutcome.fileTooLarge bytes.length
    else UploadOutcome.sendRequest (String.mk (b64stdChars bytes))

/-- Outcome of a post command after settings are loaded, the token is
ensured valid, and the text is resolved. -/
inductive CmdOutcome where
  /-- Path `print("ERROR=...", file=sys.stderr); sys.exit(1)` before any network
  call. -/
  | exitError : String → CmdOutcome
  /-- Path where `create_post` (and, for images, the uploads) is reached; carries the
  warnings printed on stderr and the text passed on. -/
  | proceed : List String → String → CmdOutcome
deriving DecidableEq

/-- The oversize warning of `cmd_post_text` (x-api.py:295-297). -/
def lengthWarning (n : Nat) : String :=
  "WARNING=Text is " ++ Nat.repr n ++
    " chars. X limit is 25,000 for premium, 280 for free accounts."

/-- Embedding of `cmd_post_text` (x-api.py:289-299) between text resolution and
`create_post`: a text longer than 25000 characters only triggers a warning;
there is no exit path here. -/
def cmd_post_text_check (text : String) : CmdOutcome :=
  CmdOutcome.proceed
    (if 25000 < text.length then [lengthWarning text.length] else []) text

/-- Embedding of `cmd_post_image` (x-api.py:307-320) between text resolution and the
uploads: more than 4 images is a fatal pre-flight error. -/
def cmd_post_image_check (text : String) (images : List String) : CmdOutcome :=
  if 4 < images.length then
    CmdOutcome.exitError "X allows at most 4 images per post."
  else
    CmdOutcome.proceed [] text

/-! ## Helper lemmas -/

theorem dropWhile_eq_self (p : Char → Bool) (l : List Char)
    (h : ∀ c ∈ l, p c = false) : l.dropWhile p = l := by
  cases l with
  | nil => rfl
  | cons a as =>
    rw [List.dropWhile_cons]
    simp [h a (List.mem_cons_self a as)]

theorem dictGet_dictSet_same (d : List (String × String)) (k v dflt : String) :
    dictGet (dictSet d k v) k dflt = v := by
  induction d with
  | nil => simp [dictGet, dictSet]
  | cons p rest ih =>
    obtain ⟨k', v'⟩ := p
    by_cases h : k' = k
    · subst h; simp [dictSet, dictGet]
    · simp [dictSet, dictGet, h, ih]

theorem dictGet_dictSet_other (d : List (String × String)) (k v k2 dflt : String)
    (h : k ≠ k2) : dictGet (dictSet d k v) k2 dflt = dictGet d k2 dflt := by
  induction d with
  | nil => simp [dictGet, dictSet, h]
  | cons p rest ih =>
    obtain ⟨k', v'⟩ := p
    by_cases h' : k' = k
    · subst h'; simp [dictSet, dictGet, h]
    · simp only [dictSet, if_neg h', dictGet]
      by_cases h2 : k' = k2
      · simp [h2]
      · simp [h2, ih]

theorem getD_map_lt (f : String → String) :
    ∀ (l : List String) (i : Nat), i < l.length →
      (l.map f).getD i "" = f (l.getD i "")
  | a :: as, 0, _ => rfl
  | a :: as, i + 1, h =>
    getD_map_lt f as i (by simp at h; omega)

theorem length_mk (l : List Char) : (String.mk l).length = l.length := rfl

/-- Unfolding of `refresh_access_token` on its success path (the refresh
token is present and the endpoint answered `resp`). -/
theorem refresh_access_token_eq (now : Nat) (resp : TokenData) (st : RefreshState)
    (hr : dictGet st.settings "refresh_token" "" ≠ "") :
    refresh_access_token now resp st = some
      { settings := updateSettings st.settings resp.access_token
          (resp.refresh_token.getD (dictGet st.settings "refresh_token" ""))
          (Nat.repr (now + resp.expires_in.getD 7200))
        store := rewriteStore resp.access_token
          (resp.refresh_token.getD (dictGet st.settings "refresh_token" ""))
          (now + resp.expires_in.getD 7200) st.store
        networkCalls := st.networkCalls + 1 } := by
  unfold refresh_access_token
  rw [if_neg hr]

/-! ## Decimal representation round-trip

`refresh_access_token` stores `str(expires_at)` in the settings dict and
`ensure_valid_token` reads it back through `int(...)`; these lemmas show
that `pyInt?` inverts `Nat.repr`. -/

/-- Decimal digits of `n`, most significant first (specification-side
recursion used to characterise `Nat.repr`). -/
def decimalDigits (n : Nat) : List Char :=
  if _h : n < 10 then [Nat.digitChar n]
  else decimalDigits (n / 10) ++ [Nat.digitChar (n % 10)]
termination_by n
decreasing_by exact Nat.div_lt_self (by omega) (by omega)

theorem decimalDigits_lt (n : Nat) (h : n < 10) :
    decimalDigits n = [Nat.digitChar n] := by
  unfold decimalDigits; simp [h]

theorem decimalDigits_ge (n : Nat) (h : ¬ n < 10) :
    decimalDigits n = decimalDigits (n / 10) ++ [Nat.digitChar (n % 10)] := by
  conv_lhs => unfold decimalDigits
  simp [h]

theorem decimalDigits_ne_nil (n : Nat) : decimalDigits n ≠ [] := by
  by_cases h : n < 10
  · rw [decimalDigits_lt n h]; simp
  · rw [decimalDigits_ge n h]; simp

theorem toDigitsCore_eq : ∀ (fuel n : Nat) (acc : List Char), n < fuel →
    Nat.toDigitsCore 10 fuel n acc = decimalDigits n ++ acc := by
  intro fuel
  induction fuel with
  | zero => intro n acc h; omega
  | succ f ih =>
    intro n acc h
    simp only [Nat.toDigitsCore]
    by_cases h0 : n / 10 = 0
    · have hn : n < 10 := by omega
      simp [h0, decimalDigits_lt n hn, Nat.mod_eq_of_lt hn]
    · have hn : ¬ n < 10 := by omega
      simp only [h0, if_false]
      rw [ih (n / 10) _ (by omega), decimalDigits_ge n hn]
      simp

theorem natRepr_eq (n : Nat) : Nat.repr n = String.mk (decimalDigits n) := by
  show (Nat.toDigits 10 n).asString = _
  rw [Nat.toDigits, toDigitsCore_eq (n + 1) n [] (Nat.lt_succ_self n)]
  simp [List.asString]

/-- The ten decimal digit characters. -/
def decDigitChars : List Char := ['0', '1', '2', '3', '4', '5', '6', '7', '8', '9']

theorem digitChar_mem (d : Nat) (h : d < 10) : Nat.digitChar d ∈ decDigitChars := by
  have hall : ∀ i : Fin 10, Nat.digitChar i.val ∈ decDigitChars := by decide
  exact hall ⟨d, h⟩

theorem digitVal_digitChar (d : Nat) (h : d < 10) :
    digitVal? (Nat.digitChar d) = some d := by
  have hall : ∀ i : Fin 10, digitVal? (Nat.digitChar i.val) = some i.val := by decide
  exact hall ⟨d, h⟩

theorem decimalDigits_mem (n : Nat) : ∀ c ∈ decimalDigits n, c ∈ decDigitChars := by
  induction n using Nat.strong_induction_on with
  | _ n ih =>
    by_cases h : n < 10
    · rw [decimalDigits_lt n h]
      intro c hc
      simp at hc
      subst hc
      exact digitChar_mem n h
    · rw [decimalDigits_ge n h]
      intro c hc
      rcases List.mem_append.mp hc with h1 | h1
      · exact ih (n / 10) (Nat.div_lt_self (by omega) (by omega)) c h1
      · simp at h1
        subst h1
        exact digitChar_mem _ (Nat.mod_lt _ (by omega))

theorem parseDigitsAcc_append : ∀ (l1 l2 : List Char) (acc : Nat),
    parseDigitsAcc (l1 ++ l2) acc =
      match parseDigitsAcc l1 acc with
      | some a => parseDigitsAcc l2 a
      | none => none
  | [], l2, acc => rfl
  | c :: cs, l2, acc => by
    cases h : digitVal? c with
    | some d =>
      simp only [List.cons_append, parseDigitsAcc, h]
      exact parseDigitsAcc_append cs l2 (10 * acc + d)
    | none => simp only [List.cons_append, parseDigitsAcc, h]

theorem parseDigitsAcc_decimal (n : Nat) : ∀ acc : Nat,
    parseDigitsAcc (decimalDigits n) acc =
      some (acc * 10 ^ (decimalDigits n).length + n) := by
  induction n using Nat.strong_induction_on with
  | _ n ih =>
    intro acc
    by_cases h : n < 10
    · rw [decimalDigits_lt n h]
      simp only [parseDigitsAcc, digitVal_digitChar n h, List.length_singleton, pow_one]
      congr 1
      ring
    · rw [decimalDigits_ge n h, parseDigitsAcc_append,
        ih (n / 10) (Nat.div_lt_self (by omega) (by omega)) acc]
      simp only [parseDigitsAcc, digitVal_digitChar (n % 10) (Nat.mod_lt _ (by omega)),
        List.length_append, List.length_singleton]
      congr 1
      have hd : 10 * (n / 10) + n % 10 = n := Nat.div_add_mod n 10
      have e1 : 10 * (acc * 10 ^ (decimalDigits (n / 10)).length + n / 10) + n % 10
          = acc * 10 ^ (decimalDigits (n / 10)).length * 10 + (10 * (n / 10) + n % 10) := by
        ring
      rw [e1, hd, pow_succ]
      ring

theorem pyIntList_decimal (n : Nat) : pyIntList? (decimalDigits n) = some (n : Int) := by
  have hspace : ∀ c ∈ decimalDigits n, isPySpace c = false := by
    intro c hc
    have hm := decimalDigits_mem n c hc
    fin_cases hm <;> rfl
  have hstrip : pyStripList (decimalDigits n) = decimalDigits n := by
    unfold pyStripList
    rw [dropWhile_eq_self _ _ hspace,
      dropWhile_eq_self _ _ (fun c hc => hspace c (List.mem_reverse.mp hc)),
      List.reverse_reverse]
  obtain ⟨c, rest, hcons⟩ := List.exists_cons_of_ne_nil (decimalDigits_ne_nil n)
  have hc : c ∈ decDigitChars := decimalDigits_mem n c (hcons ▸ List.mem_cons_self c rest)
  have hcm : ¬ c = '-' := by fin_cases hc <;> decide
  have hcp : ¬ c = '+' := by fin_cases hc <;> decide
  have hparse : parseDigits? (c :: rest) = some n := by
    show parseDigitsAcc (c :: rest) 0 = some n
    rw [← hcons, parseDigitsAcc_decimal n 0]
    simp
  unfold pyIntList?
  rw [hstrip, hcons]
  simp [hcm, hcp, hparse]

theorem pyInt_repr (n : Nat) : pyInt? (Nat.repr n) = some (n : Int) := by
  unfold pyInt?
  rw [natRepr_eq]
  show pyIntList? (decimalDigits n) = _
  exact pyIntList_decimal n

/-! ## Base64 lemmas -/

theorem b64char_mem (n : Nat) : b64char n ∈ b64table := by
  have h : n % 64 < 64 := Nat.mod_lt _ (by omega)
  have hall : ∀ i : Fin 64, b64table.getD i.val 'A' ∈ b64table := by decide
  exact hall ⟨n % 64, h⟩

theorem b64table_sub_pkce : ∀ c ∈ b64table, c ∈ pkceAlphabet := by decide

theorem b64urlChars_mem : ∀ (bs : List Nat), ∀ c ∈ b64urlChars bs, c ∈ b64table
  | [] => by simp [b64urlChars]
  | [b1] => by
    intro c hc
    simp only [b64urlChars, List.mem_cons, List.not_mem_nil, or_false] at hc
    rcases hc with h | h <;> subst h <;> exact b64char_mem _
  | [b1, b2] => by
    intro c hc
    simp only [b64urlChars, List.mem_cons, List.not_mem_nil, or_false] at hc
    rcases hc with h | h | h <;> subst h <;> exact b64char_mem _
  | b1 :: b2 :: b3 :: rest => by
    intro c hc
    simp only [b64urlChars, List.mem_cons] at hc
    rcases hc with h | h | h | h | h
    · subst h; exact b64char_mem _
    · subst h; exact b64char_mem _
    · subst h; exact b64char_mem _
    · subst h; exact b64char_mem _
    · exact b64urlChars_mem rest c h

theorem b64urlChars_length : ∀ bs : List Nat,
    (b64urlChars bs).length =
      4 * (bs.length / 3) +
        (if bs.length % 3 = 0 then 0 else if bs.length % 3 = 1 then 2 else 3)
  | [] => by simp [b64urlChars]
  | [b1] => by simp [b64urlChars]
  | [b1, b2] => by simp [b64urlChars]
  | b1 :: b2 :: b3 :: rest => by
    have ih := b64urlChars_length rest
    simp only [b64urlChars, List.length_cons, ih]
    have h3 : (rest.length + 1 + 1 + 1) % 3 = rest.length % 3 := by omega
    simp only [h3]
    split_ifs <;> omega

/-! ## Claim theorems -/

/-- Claim C1 (code defect): the spec requires the wait on the callback
listener to be time-bounded, failing the flow with a `no_response` error —
but `run_oauth_flow` configures no timeout on the `HTTPServer`
(`serverTimeout = none`), so when no callback request ever arrives the wait
remains in the `listening` state at every instant and never terminates: the
`no_response` exit is unreachable. -/
theorem c1_listener_wait_unbounded (expected_state : String) (n : Nat) :
    serverTimeout = none ∧
    listenerRun expected_state (fun _ => none) n = ListenerState.listening ∧
    ∀ r, listenerRun expected_state (fun _ => none) n ≠ ListenerState.closed r := by
  have hrun : listenerRun expected_state (fun _ => none) n = ListenerState.listening := by
    induction n with
    | zero => rfl
    | succ m ih => simp [listenerRun, ih, listenerStep, serverTimeout]
  refine ⟨rfl, hrun, ?_⟩
  intro r
  rw [hrun]
  intro hcontra
  exact ListenerState.noConfusion hcontra

/-- Claim C2, counterexample: a callback request whose `state` differs from
`expected_state` but which carries no `code` parameter is handled by the
missing-`code` branch of `do_GET`, so it records `{error: "unknown"}` rather
than `{error: "state_mismatch"}`. -/
theorem c2_counterexample :
    dictGet [("state", "bad")] "state" "" ≠ "good" ∧
    do_GET "good" [("state", "bad")] = (400, AuthResult.err "unknown" "No details") ∧
    (do_GET "good" [("state", "bad")]).2 ≠ AuthResult.stateMismatch := by
  decide

/-- Claim C2 (amended): for every incoming callback request that carries a
`code` parameter and whose `state` differs from `expected_state`, the
listener responds 400 and records `{error: "state_mismatch"}`, regardless of
any other parameters present (requests without a `code` parameter are
handled by the error branch instead). -/
theorem c2_state_mismatch_when_code_present (expected_state : String)
    (params : List (String × String))
    (hcode : hasKey params "code" = true)
    (hstate : dictGet params "state" "" ≠ expected_state) :
    do_GET expected_state params = (400, AuthResult.stateMismatch) := by
  simp [do_GET, hcode, hstate]

theorem c2_state_mismatch_when_code_present_witness :
    hasKey [("code", "c"), ("state", "bad"), ("error", "x")] "code" = true ∧
    dictGet [("code", "c"), ("state", "bad"), ("error", "x")] "state" "" ≠ "good" ∧
    do_GET "good" [("code", "c"), ("state", "bad"), ("error", "x")] =
      (400, AuthResult.stateMismatch) :=
  ⟨by decide, by decide,
    c2_state_mismatch_when_code_present "good" _ (by decide) (by decide)⟩

/-- Claim C3, counterexample: a callback request carrying `error` **and** a
`code` with matching `state` is recorded as a success (`do_GET` only takes
the error branch when `code` is absent), the listener responds 200, and the
flow proceeds to the token exchange. -/
theorem c3_counterexample :
    hasKey [("code", "c"), ("error", "access_denied"), ("state", "s")] "error" = true ∧
    do_GET "s" [("code", "c"), ("error", "access_denied"), ("state", "s")] =
      (200, AuthResult.success "c") ∧
    flow_after_callback
      (some (do_GET "s" [("code", "c"), ("error", "access_denied"), ("state", "s")]).2) =
      FlowOutcome.exchange "c" := by
  decide

/-- Claim C3 (amended): for every incoming callback request whose query
parameters do not contain `code` (in particular every denied-authorization
callback, which carries `error` but no `code`), the listener responds 400
and records `{error, description}` (defaulting to `unknown`/`No details`),
never a success result, and the flow then exits without attempting a token
exchange. -/
theorem c3_error_callback_no_exchange (expected_state : String)
    (params : List (String × String))
    (hcode : hasKey params "code" = false) :
    do_GET expected_state params =
      (400, AuthResult.err (dictGet params "error" "unknown")
        (dictGet params "error_description" "No details")) ∧
    flow_after_callback (some (do_GET expected_state params).2) =
      FlowOutcome.exitNoExchange (dictGet params "error" "unknown")
        (dictGet params "error_description" "No details") := by
  have h1 : do_GET expected_state params =
      (400, AuthResult.err (dictGet params "error" "unknown")
        (dictGet params "error_description" "No details")) := by
    simp [do_GET, hcode]
  exact ⟨h1, by rw [h1]; rfl⟩

theorem c3_error_callback_no_exchange_witness :
    hasKey [("error", "access_denied"), ("error_description", "denied"), ("state", "s")]
      "code" = false ∧
    (do_GET "s" [("error", "access_denied"), ("error_description", "denied"), ("state", "s")] =
      (400, AuthResult.err
        (dictGet [("error", "access_denied"), ("error_description", "denied"), ("state", "s")]
          "error" "unknown")
        (dictGet [("error", "access_denied"), ("error_description", "denied"), ("state", "s")]
          "error_description" "No details")) ∧
    flow_after_callback
      (some (do_GET "s"
        [("error", "access_denied"), ("error_description", "denied"), ("state", "s")]).2) =
      FlowOutcome.exitNoExchange
        (dictGet [("error", "access_denied"), ("error_description", "denied"), ("state", "s")]
          "error" "unknown")
        (dictGet [("error", "access_denied"), ("error_description", "denied"), ("state", "s")]
          "error_description" "No details")) :=
  ⟨by decide, c3_error_callback_no_exchange "s" _ (by decide)⟩

/-- Claim C8: a media file larger than 5 MiB makes `upload_media` fail with
the size-limit error (reporting the size) before any request is constructed
or sent — the outcome is never `sendRequest`. -/
theorem c8_upload_media_size_limit (bytes : List Nat)
    (h : 5 * 1024 * 1024 < bytes.length) :
    upload_media (some bytes) = UploadOutcome.fileTooLarge bytes.length ∧
    ∀ s, upload_media (some bytes) ≠ UploadOutcome.sendRequest s := by
  have hgt : bytes.length > 5 * 1024 * 1024 := h
  refine ⟨by simp [upload_media, hgt], ?_⟩
  intro s
  simp [upload_media, hgt]

theorem c8_upload_media_size_limit_witness :
    5 * 1024 * 1024 < (List.replicate (5 * 1024 * 1024 + 1) (0 : Nat)).length ∧
    (upload_media (some (List.replicate (5 * 1024 * 1024 + 1) (0 : Nat))) =
      UploadOutcome.fileTooLarge (List.replicate (5 * 1024 * 1024 + 1) (0 : Nat)).length ∧
    ∀ s, upload_media (some (List.replicate (5 * 1024 * 1024 + 1) (0 : Nat))) ≠
      UploadOutcome.sendRequest s) :=
  ⟨by simp only [List.length_replicate]; omega,
    c8_upload_media_size_limit _ (by simp only [List.length_replicate]; omega)⟩

/-- Claim C10: a resolved text longer than 25000 characters makes
`cmd_post_text` emit only a warning and still proceed to `create_post` —
there is no exit before the network call — in contrast to the image-count
pre-flight check, which exits fatally. -/
theorem c10_long_text_only_warns (text : String) (h : 25000 < text.length) :
    cmd_post_text_check text = CmdOutcome.proceed [lengthWarning text.length] text ∧
    (∀ m, cmd_post_text_check text ≠ CmdOutcome.exitError m) ∧
    (∀ t images, 4 < images.length →
      cmd_post_image_check t images =
        CmdOutcome.exitError "X allows at most 4 images per post.") := by
  refine ⟨by simp [cmd_post_text_check, h], ?_, ?_⟩
  · intro m
    simp [cmd_post_text_check]
  · intro t images hi
    simp [cmd_post_image_check, hi]

theorem c10_long_text_only_warns_witness :
    25000 < (String.mk (List.replicate 25001 'x')).length ∧
    (cmd_post_text_check (String.mk (List.replicate 25001 'x')) =
      CmdOutcome.proceed
        [lengthWarning (String.mk (List.replicate 25001 'x')).length]
        (String.mk (List.replicate 25001 'x')) ∧
    (∀ m, cmd_post_text_check (String.mk (List.replicate 25001 'x')) ≠
      CmdOutcome.exitError m) ∧
    (∀ t images, 4 < images.length →
      cmd_post_image_check t images =
        CmdOutcome.exitError "X allows at most 4 images per post.")) :=
  ⟨by simp only [length_mk, List.length_replicate]; omega,
    c10_long_text_only_warns _ (by simp only [length_mk, List.length_replicate]; omega)⟩

/-- Claim C6: for the 64 random bytes drawn by `secrets.token_urlsafe(64)`,
the pair returned by `generate_pkce_pair` has a verifier of length 86
(within [43,128]) whose characters all lie in the alphabet `[A-Za-z0-9._~-]`,
and a challenge equal to the padding-stripped URL-safe base64 encoding of
the SHA-256 digest of the verifier's ASCII bytes. -/
theorem c6_pkce_pair_spec (sha256 : List Nat → List Nat) (randomBytes : List Nat)
    (hlen : randomBytes.length = 64) :
    43 ≤ (generate_pkce_pair sha256 randomBytes).1.length ∧
    (generate_pkce_pair sha256 randomBytes).1.length ≤ 128 ∧
    (∀ c ∈ (generate_pkce_pair sha256 randomBytes).1.toList, c ∈ pkceAlphabet) ∧
    (generate_pkce_pair sha256 randomBytes).2 =
      String.mk (b64urlChars
        (sha256 ((generate_pkce_pair sha256 randomBytes).1.toList.map Char.toNat))) := by
  have hlen86 : (b64urlChars randomBytes).length = 86 := by
    rw [b64urlChars_length, hlen]
    decide
  have htake : (b64urlChars randomBytes).take 128 = b64urlChars randomBytes :=
    List.take_of_length_le (by rw [hlen86]; omega)
  refine ⟨?_, ?_, ?_, rfl⟩
  · show 43 ≤ ((b64urlChars randomBytes).take 128).length
    rw [htake, hlen86]
    omega
  · show ((b64urlChars randomBytes).take 128).length ≤ 128
    rw [htake, hlen86]
    omega
  · intro c hc
    have hc2 : c ∈ (b64urlChars randomBytes).take 128 := hc
    rw [htake] at hc2
    exact b64table_sub_pkce c (b64urlChars_mem randomBytes c hc2)

theorem c6_pkce_pair_spec_witness :
    (List.replicate 64 (0 : Nat)).length = 64 ∧
    (43 ≤ (generate_pkce_pair (fun _ => []) (List.replicate 64 (0 : Nat))).1.length ∧
    (generate_pkce_pair (fun _ => []) (List.replicate 64 (0 : Nat))).1.length ≤ 128 ∧
    (∀ c ∈ (generate_pkce_pair (fun _ => []) (List.replicate 64 (0 : Nat))).1.toList,
      c ∈ pkceAlphabet) ∧
    (generate_pkce_pair (fun _ => []) (List.replicate 64 (0 : Nat))).2 =
      String.mk (b64urlChars
        ((fun _ => [])
          ((generate_pkce_pair (fun _ => []) (List.replicate 64 (0 : Nat))).1.toList.map
            Char.toNat)))) :=
  ⟨by simp, c6_pkce_pair_spec (fun _ => []) (List.replicate 64 (0 : Nat)) (by simp)⟩

/-- Claim C9: when the settings-file content does not split into at least
three `---`-separated parts, `refresh_access_token` leaves the file
untouched, yet still returns the in-memory settings updated with the new
tokens and reports success — the persisted and returned credential sets
diverge silently. -/
theorem c9_refresh_without_persist (now : Nat) (resp : TokenData) (st : RefreshState)
    (h3 : (pySplit "---" st.store).length < 3)
    (hr : dictGet st.settings "refresh_token" "" ≠ "") :
    ∃ st', refresh_access_token now resp st = some st' ∧
      st'.store = st.store ∧
      st'.networkCalls = st.networkCalls + 1 ∧
      dictGet st'.settings "access_token" "" = resp.access_token ∧
      dictGet st'.settings "refresh_token" "" =
        resp.refresh_token.getD (dictGet st.settings "refresh_token" "") ∧
      dictGet st'.settings "token_expires_at" "" =
        Nat.repr (now + resp.expires_in.getD 7200) := by
  refine ⟨_, refresh_access_token_eq now resp st hr, ?_, rfl, ?_, ?_, ?_⟩
  · show rewriteStore _ _ _ st.store = st.store
    unfold rewriteStore
    rw [if_neg (by omega)]
  · show dictGet (updateSettings st.settings _ _ _) "access_token" "" = resp.access_token
    unfold updateSettings
    rw [dictGet_dictSet_other _ _ _ _ _ (by decide),
      dictGet_dictSet_other _ _ _ _ _ (by decide), dictGet_dictSet_same]
  · show dictGet (updateSettings st.settings _ _ _) "refresh_token" "" = _
    unfold updateSettings
    rw [dictGet_dictSet_other _ _ _ _ _ (by decide), dictGet_dictSet_same]
  · show dictGet (updateSettings st.settings _ _ _) "token_expires_at" "" = _
    unfold updateSettings
    rw [dictGet_dictSet_same]

theorem c9_refresh_without_persist_witness :
    (pySplit "---" "no delimiters").length < 3 ∧
    dictGet [("refresh_token", "r")] "refresh_token" "" ≠ "" ∧
    (∃ st', refresh_access_token 1000 ⟨"A2", some "r2", some 100⟩
        ⟨[("refresh_token", "r")], "no delimiters", 0⟩ = some st' ∧
      st'.store = "no delimiters" ∧
      st'.networkCalls = 0 + 1 ∧
      dictGet st'.settings "access_token" "" = "A2" ∧
      dictGet st'.settings "refresh_token" "" = "r2" ∧
      dictGet st'.settings "token_expires_at" "" = Nat.repr 1100) :=
  ⟨by decide, by decide,
    c9_refresh_without_persist 1000 ⟨"A2", some "r2", some 100⟩
      ⟨[("refresh_token", "r")], "no delimiters", 0⟩ (by decide) (by decide)⟩

/-- Claim C4, counterexample: with an expired token but a settings file that
does not split into three `---` parts (here it lacks the closing delimiter),
`ensure_valid_token` does refresh (the in-memory access token becomes the
new one) yet writes nothing to the store — so the refresh case does not
always persist the updated credential set. -/
theorem c4_counterexample :
    pyInt? (dictGet [("refresh_token", "r"), ("token_expires_at", "100"),
      ("access_token", "a")] "token_expires_at" "0") = some 100 ∧
    ((100 : Int) ≠ 0 ∧ (1000 : Int) > 100 - 300) ∧
    (ensure_valid_token 1000 ⟨"NEWACC", none, none⟩
      ⟨[("refresh_token", "r"), ("token_expires_at", "100"), ("access_token", "a")],
        "---\naccess_token: \"a\"\ntoken_expires_at: 100", 0⟩).map RefreshState.store =
      some "---\naccess_token: \"a\"\ntoken_expires_at: 100" ∧
    (ensure_valid_token 1000 ⟨"NEWACC", none, none⟩
      ⟨[("refresh_token", "r"), ("token_expires_at", "100"), ("access_token", "a")],
        "---\naccess_token: \"a\"\ntoken_expires_at: 100", 0⟩).map
      (fun s => dictGet s.settings "access_token" "") = some "NEWACC" := by
  decide

/-- Claim C4 (amended): `ensure_valid_token` refreshes exactly when the
stored `token_expires_at` parses to a non-zero integer `e` with
`now > e - 300`; in that case it performs exactly one network call, updates
the returned credential set's tokens and expiry, and persists them to the
store provided the stored document splits into at least three `---` parts
(otherwise the store is left untouched); in every other case it returns its
input unchanged with no network call and no store write. -/
theorem c4_ensure_valid_policy (now : Nat) (resp : TokenData) (st : RefreshState)
    (e : Int)
    (he : pyInt? (dictGet st.settings "token_expires_at" "0") = some e)
    (hr : dictGet st.settings "refresh_token" "" ≠ "") :
    (¬ (e ≠ 0 ∧ (now : Int) > e - 300) → ensure_valid_token now resp st = some st) ∧
    ((e ≠ 0 ∧ (now : Int) > e - 300) →
      ∃ st', ensure_valid_token now resp st = some st' ∧
        st'.networkCalls = st.networkCalls + 1 ∧
        dictGet st'.settings "access_token" "" = resp.access_token ∧
        dictGet st'.settings "token_expires_at" "" =
          Nat.repr (now + resp.expires_in.getD 7200) ∧
        st'.store = rewriteStore resp.access_token
          (resp.refresh_token.getD (dictGet st.settings "refresh_token" ""))
          (now + resp.expires_in.getD 7200) st.store ∧
        ((pySplit "---" st.store).length < 3 → st'.store = st.store) ∧
        (3 ≤ (pySplit "---" st.store).length →
          (∃ l ∈ frontmatterLines st.store,
            pyStartsWith (pyStrip l) "access_token:" = true) →
          ("access_token: \"" ++ resp.access_token ++ "\"") ∈
            rewrittenLines resp.access_token
              (resp.refresh_token.getD (dictGet st.settings "refresh_token" ""))
              (now + resp.expires_in.getD 7200) st.store)) := by
  have heq : ensure_valid_token now resp st =
      if e ≠ 0 ∧ (now : Int) > e - 300 then refresh_access_token now resp st
      else some st := by
    unfold ensure_valid_token
    rw [he]
  constructor
  · intro h
    rw [heq, if_neg h]
  · intro h
    refine ⟨_, by rw [heq, if_pos h]; exact refresh_access_token_eq now resp st hr,
      rfl, ?_, ?_, rfl, ?_, ?_⟩
    · show dictGet (updateSettings st.settings _ _ _) "access_token" "" = resp.access_token
      unfold updateSettings
      rw [dictGet_dictSet_other _ _ _ _ _ (by decide),
        dictGet_dictSet_other _ _ _ _ _ (by decide), dictGet_dictSet_same]
    · show dictGet (updateSettings st.settings _ _ _) "token_expires_at" "" = _
      unfold updateSettings
      rw [dictGet_dictSet_same]
    · intro h3
      show rewriteStore _ _ _ st.store = st.store
      unfold rewriteStore
      rw [if_neg (by omega)]
    · intro _ hex
      obtain ⟨l, hl, hstart⟩ := hex
      have hmem := List.mem_map_of_mem
        (replaceTokenLine resp.access_token
          (resp.refresh_token.getD (dictGet st.settings "refresh_token" ""))
          (now + resp.expires_in.getD 7200)) hl
      have hrepl : replaceTokenLine resp.access_token
          (resp.refresh_token.getD (dictGet st.settings "refresh_token" ""))
          (now + resp.expires_in.getD 7200) l =
          "access_token: \"" ++ resp.access_token ++ "\"" := by
        unfold replaceTokenLine
        rw [if_pos hstart]
      rw [hrepl] at hmem
      exact hmem

theorem c4_ensure_valid_policy_witness :
    pyInt? (dictGet [("refresh_token", "r"), ("token_expires_at", "100"),
      ("access_token", "a")] "token_expires_at" "0") = some 100 ∧
    dictGet [("refresh_token", "r"), ("token_expires_at", "100"),
      ("access_token", "a")] "refresh_token" "" ≠ "" ∧
    ((¬ ((100 : Int) ≠ 0 ∧ (1000 : Int) > 100 - 300) →
      ensure_valid_token 1000 ⟨"N", none, none⟩
        ⟨[("refresh_token", "r"), ("token_expires_at", "100"), ("access_token", "a")],
          "---\naccess_token: \"a\"\ntoken_expires_at: 100\n---\nrest", 0⟩ =
        some ⟨[("refresh_token", "r"), ("token_expires_at", "100"), ("access_token", "a")],
          "---\naccess_token: \"a\"\ntoken_expires_at: 100\n---\nrest", 0⟩) ∧
    (((100 : Int) ≠ 0 ∧ (1000 : Int) > 100 - 300) →
      ∃ st', ensure_valid_token 1000 ⟨"N", none, none⟩
          ⟨[("refresh_token", "r"), ("token_expires_at", "100"), ("access_token", "a")],
            "---\naccess_token: \"a\"\ntoken_expires_at: 100\n---\nrest", 0⟩ = some st' ∧
        st'.networkCalls = 0 + 1 ∧
        dictGet st'.settings "access_token" "" = "N" ∧
        dictGet st'.settings "token_expires_at" "" = Nat.repr 8200 ∧
        st'.store = rewriteStore "N" "r" 8200
          "---\naccess_token: \"a\"\ntoken_expires_at: 100\n---\nrest" ∧
        ((pySplit "---"
            "---\naccess_token: \"a\"\ntoken_expires_at: 100\n---\nrest").length < 3 →
          st'.store = "---\naccess_token: \"a\"\ntoken_expires_at: 100\n---\nrest") ∧
        (3 ≤ (pySplit "---"
            "---\naccess_token: \"a\"\ntoken_expires_at: 100\n---\nrest").length →
          (∃ l ∈ frontmatterLines
              "---\naccess_token: \"a\"\ntoken_expires_at: 100\n---\nrest",
            pyStartsWith (pyStrip l) "access_token:" = true) →
          ("access_token: \"" ++ "N" ++ "\"") ∈ rewrittenLines "N" "r" 8200
            "---\naccess_token: \"a\"\ntoken_expires_at: 100\n---\nrest"))) :=
  ⟨by decide, by decide,
    c4_ensure_valid_policy 1000 ⟨"N", none, none⟩
      ⟨[("refresh_token", "r"), ("token_expires_at", "100"), ("access_token", "a")],
        "---\naccess_token: \"a\"\ntoken_expires_at: 100\n---\nrest", 0⟩
      100 (by decide) (by decide)⟩

/-- Claim C5, counterexample: the rewrite loop strips the metadata block
before splitting it into lines, so a non-token line that carries leading
whitespace (here `"  extra: v"`, the first line of the block) is not
preserved verbatim: no line of the updated document equals it. -/
theorem c5_counterexample :
    ("  extra: v" ∈ pySplit "\n" "---\n  extra: v\naccess_token: \"a\"\n---\nbody") ∧
    3 ≤ (pySplit "---" "---\n  extra: v\naccess_token: \"a\"\n---\nbody").length ∧
    pyStartsWith (pyStrip "  extra: v") "access_token:" = false ∧
    pyStartsWith (pyStrip "  extra: v") "refresh_token:" = false ∧
    pyStartsWith (pyStrip "  extra: v") "token_expires_at:" = false ∧
    rewriteStore "NEW" "r" 5 "---\n  extra: v\naccess_token: \"a\"\n---\nbody" =
      "---\nextra: v\naccess_token: \"NEW\"\n---\nbody" ∧
    ¬ ("  extra: v" ∈
      pySplit "\n" (rewriteStore "NEW" "r" 5
        "---\n  extra: v\naccess_token: \"a\"\n---\nbody")) := by
  decide

/-- Claim C5 (amended): on a store with at least three `---` parts, a
successful refresh writes back the document whose metadata block is the
line-wise rewrite of the whitespace-stripped original block and whose
remainder after the second `---` is kept verbatim; within the stripped
block, the rewrite preserves every line that is not an
`access_token:`/`refresh_token:`/`token_expires_at:` line verbatim at its
position, and replaces the token lines with the freshly formatted ones
(leading/trailing whitespace of the block itself is normalised away, which
is the only deviation from the claim as stated). -/
theorem c5_refresh_frame (new_access new_refresh : String) (expires_at : Nat)
    (content : String) (h3 : 3 ≤ (pySplit "---" content).length) :
    rewriteStore new_access new_refresh expires_at content =
      "---\n" ++ pyJoin "\n" (rewrittenLines new_access new_refresh expires_at content)
        ++ "\n---" ++ pyJoin "---" ((pySplit "---" content).drop 2) ∧
    (rewrittenLines new_access new_refresh expires_at content).length =
      (frontmatterLines content).length ∧
    (∀ i, i < (frontmatterLines content).length →
      pyStartsWith (pyStrip ((frontmatterLines content).getD i ""))
        "access_token:" = false →
      pyStartsWith (pyStrip ((frontmatterLines content).getD i ""))
        "refresh_token:" = false →
      pyStartsWith (pyStrip ((frontmatterLines content).getD i ""))
        "token_expires_at:" = false →
      (rewrittenLines new_access new_refresh expires_at content).getD i "" =
        (frontmatterLines content).getD i "") ∧
    (∀ i, i < (frontmatterLines content).length →
      pyStartsWith (pyStrip ((frontmatterLines content).getD i ""))
        "access_token:" = true →
      (rewrittenLines new_access new_refresh expires_at content).getD i "" =
        "access_token: \"" ++ new_access ++ "\"") := by
  refine ⟨?_, List.length_map _ _, ?_, ?_⟩
  · unfold rewriteStore
    rw [if_pos h3]
  · intro i hi h1 h2 h3'
    unfold rewrittenLines
    rw [getD_map_lt _ _ _ hi]
    unfold replaceTokenLine
    rw [if_neg (by rw [h1]; exact Bool.false_ne_true),
      if_neg (by rw [h2]; exact Bool.false_ne_true),
      if_neg (by rw [h3']; exact Bool.false_ne_true)]
  · intro i hi h1
    unfold rewrittenLines
    rw [getD_map_lt _ _ _ hi]
    unfold replaceTokenLine
    rw [if_pos h1]

theorem c5_refresh_frame_witness :
    3 ≤ (pySplit "---" "---\nusername: \"u\"\naccess_token: \"a\"\n---\nrest").length ∧
    (rewriteStore "N" "R" 7 "---\nusername: \"u\"\naccess_token: \"a\"\n---\nrest" =
      "---\n" ++ pyJoin "\n"
        (rewrittenLines "N" "R" 7 "---\nusername: \"u\"\naccess_token: \"a\"\n---\nrest")
        ++ "\n---" ++ pyJoin "---"
        ((pySplit "---" "---\nusername: \"u\"\naccess_token: \"a\"\n---\nrest").drop 2) ∧
    (rewrittenLines "N" "R" 7
        "---\nusername: \"u\"\naccess_token: \"a\"\n---\nrest").length =
      (frontmatterLines "---\nusername: \"u\"\naccess_token: \"a\"\n---\nrest").length ∧
    (∀ i, i < (frontmatterLines
        "---\nusername: \"u\"\naccess_token: \"a\"\n---\nrest").length →
      pyStartsWith (pyStrip ((frontmatterLines
        "---\nusername: \"u\"\naccess_token: \"a\"\n---\nrest").getD i ""))
        "access_token:" = false →
      pyStartsWith (pyStrip ((frontmatterLines
        "---\nusername: \"u\"\naccess_token: \"a\"\n---\nrest").getD i ""))
        "refresh_token:" = false →
      pyStartsWith (pyStrip ((frontmatterLines
        "---\nusername: \"u\"\naccess_token: \"a\"\n---\nrest").getD i ""))
        "token_expires_at:" = false →
      (rewrittenLines "N" "R" 7
        "---\nusername: \"u\"\naccess_token: \"a\"\n---\nrest").getD i "" =
        (frontmatterLines
          "---\nusername: \"u\"\naccess_token: \"a\"\n---\nrest").getD i "") ∧
    (∀ i, i < (frontmatterLines
        "---\nusername: \"u\"\naccess_token: \"a\"\n---\nrest").length →
      pyStartsWith (pyStrip ((frontmatterLines
        "---\nusername: \"u\"\naccess_token: \"a\"\n---\nrest").getD i ""))
        "access_token:" = true →
      (rewrittenLines "N" "R" 7
        "---\nusername: \"u\"\naccess_token: \"a\"\n---\nrest").getD i "" =
        "access_token: \"" ++ "N" ++ "\"")) :=
  ⟨by decide,
    c5_refresh_frame "N" "R" 7 "---\nusername: \"u\"\naccess_token: \"a\"\n---\nrest"
      (by decide)⟩

/-- Lemma: `ensure_valid_token` returns its input unchanged when the stored expiry
is the decimal representation of `e` and the refresh condition fails. -/
theorem ensure_valid_token_fresh (now : Nat) (resp : TokenData) (st : RefreshState)
    (e : Nat)
    (he : dictGet st.settings "token_expires_at" "0" = Nat.repr e)
    (hfresh : ¬ ((e : Int) ≠ 0 ∧ (now : Int) > (e : Int) - 300)) :
    ensure_valid_token now resp st = some st := by
  unfold ensure_valid_token
  rw [he, pyInt_repr]
  show (if (e : Int) ≠ 0 ∧ (now : Int) > (e : Int) - 300 then
    refresh_access_token now resp st else some st) = some st
  rw [if_neg hfresh]

/-- Claim C7, counterexample: when the token endpoint answers with
`expires_in = 100` (inside the 300-second refresh margin), the first
`ensure_valid_token` call refreshes (one network call) and the second call,
at the same instant, refreshes again — the network-call counter reaches 2,
so the second call does not perform zero network calls. -/
theorem c7_counterexample :
    (ensure_valid_token 1000 ⟨"A2", some "r2", some 100⟩
      ⟨[("refresh_token", "r"), ("token_expires_at", "100"), ("access_token", "a")],
        "x", 0⟩).map RefreshState.networkCalls = some 1 ∧
    ((ensure_valid_token 1000 ⟨"A2", some "r2", some 100⟩
      ⟨[("refresh_token", "r"), ("token_expires_at", "100"), ("access_token", "a")],
        "x", 0⟩).bind
      (ensure_valid_token 1000 ⟨"A2", some "r2", some 100⟩)).map
      RefreshState.networkCalls = some 2 := by
  decide

/-- Claim C7 (amended): a second `ensure_valid_token` call immediately after
a first one returns its input unchanged (zero network calls) provided the
first call either did not refresh, or refreshed with a response whose
`expires_in` is at least the 300-second margin (in particular with the 7200
default used when the endpoint omits it); an `expires_in` below 300 makes
the second call refresh again. -/
theorem c7_ensure_valid_second_call (now : Nat) (resp resp2 : TokenData)
    (st : RefreshState) (e : Int)
    (he : pyInt? (dictGet st.settings "token_expires_at" "0") = some e)
    (hr : (e ≠ 0 ∧ (now : Int) > e - 300) → dictGet st.settings "refresh_token" "" ≠ "")
    (hE : 300 ≤ resp.expires_in.getD 7200) :
    ∃ st', ensure_valid_token now resp st = some st' ∧
      ensure_valid_token now resp2 st' = some st' := by
  have heq : ensure_valid_token now resp st =
      if e ≠ 0 ∧ (now : Int) > e - 300 then refresh_access_token now resp st
      else some st := by
    unfold ensure_valid_token
    rw [he]
  by_cases h : e ≠ 0 ∧ (now : Int) > e - 300
  · have hr' := hr h
    refine ⟨_, by rw [heq, if_pos h]; exact refresh_access_token_eq now resp st hr', ?_⟩
    apply ensure_valid_token_fresh now resp2 _ (now + resp.expires_in.getD 7200)
    · show dictGet (updateSettings st.settings _ _ _) "token_expires_at" "0" = _
      unfold updateSettings
      rw [dictGet_dictSet_same]
    · intro hcon
      obtain ⟨_, hgt⟩ := hcon
      push_cast at hgt
      omega
  · refine ⟨st, by rw [heq, if_neg h], ?_⟩
    unfold ensure_valid_token
    rw [he]
    show (if e ≠ 0 ∧ (now : Int) > e - 300 then
      refresh_access_token now resp2 st else some st) = some st
    rw [if_neg h]

theorem c7_ensure_valid_second_call_witness :
    pyInt? (dictGet [("token_expires_at", "999999"), ("access_token", "a")]
      "token_expires_at" "0") = some 999999 ∧
    (((999999 : Int) ≠ 0 ∧ (0 : Int) > 999999 - 300) →
      dictGet [("token_expires_at", "999999"), ("access_token", "a")]
        "refresh_token" "" ≠ "") ∧
    300 ≤ ((none : Option Nat).getD 7200) ∧
    (∃ st', ensure_valid_token 0 ⟨"a2", none, none⟩
        ⟨[("token_expires_at", "999999"), ("access_token", "a")], "y", 0⟩ = some st' ∧
      ensure_valid_token 0 ⟨"a3", none, none⟩ st' = some st') :=
  ⟨by decide, by decide, by decide,
    c7_ensure_valid_second_call 0 ⟨"a2", none, none⟩ ⟨"a3", none, none⟩
      ⟨[("token_expires_at", "999999"), ("access_token", "a")], "y", 0⟩
      999999 (by decide) (by decide) (by decide)⟩
